import Mathlib

/-!
Shallow embedding of the zonnegosdk Go client library (instruction builders,
PDA derivation, account fetchers, and the send-and-confirm polling loop),
with theorems checking the natural-language specification against it.

Bytes are modelled as `Nat` (the Go code only ever produces values < 256),
byte slices as `List Nat`, and `solana.PublicKey` as a 32-byte list wrapped
in a structure.  `solana.FindProgramAddress` lives in an external dependency
(a SHA-256/curve computation); it is modelled as an abstract deterministic
oracle `DerivationOracle` so that the seed construction and the data flow of
the repository's own code are embedded faithfully while the hash itself
stays opaque.  Fallible Go paths become `Except String`; a Go runtime panic
(out-of-range slice) becomes `Option.none`.
-/

/-- Model of `solana.PublicKey`: 32 raw bytes. -/
structure PublicKey where
  bytes : List Nat
deriving DecidableEq, Repr

/-- Model of `solana.PublicKey.IsZero`: the key equals the all-zero key. -/
def PublicKey.IsZero (pk : PublicKey) : Bool :=
  pk.bytes == List.replicate 32 0

/-- `solana.SystemProgramID` is the all-zero public key
("11111111111111111111111111111111" in base58). -/
def SystemProgramID : PublicKey := ⟨List.replicate 32 0⟩

/-- `binary.LittleEndian.PutUint64`: a `uint64` as 8 little-endian bytes. -/
def u64le (n : Nat) : List Nat :=
  [n % 256, n / 256 % 256, n / 256 ^ 2 % 256, n / 256 ^ 3 % 256,
   n / 256 ^ 4 % 256, n / 256 ^ 5 % 256, n / 256 ^ 6 % 256, n / 256 ^ 7 % 256]

/-- Energy type constants (Go `EnergyType` enum): Solar. -/
def EnergyTypeSolar : Nat := 0

/-- Energy type constants: Wind. -/
def EnergyTypeWind : Nat := 1

/-- Energy type constants: Hydro. -/
def EnergyTypeHydro : Nat := 2

/-- Energy type constants: Other (the largest valid tag). -/
def EnergyTypeOther : Nat := 3

/-- Go `IsValidEnergyType`: `energyType <= uint8(EnergyTypeOther)`. -/
def IsValidEnergyType (energyType : Nat) : Bool :=
  energyType ≤ EnergyTypeOther

/-- Go `ValidatePublicKey`: `!pubkey.IsZero()`. -/
def ValidatePublicKey (pubkey : PublicKey) : Bool :=
  !pubkey.IsZero

/-- Go `ValidateAmount`: `amount > 0`. -/
def ValidateAmount (amount : Nat) : Bool :=
  amount > 0

/-- Go `ValidatePrice`: `priceLamports > 0`. -/
def ValidatePrice (priceLamports : Nat) : Bool :=
  priceLamports > 0

/-- Abstract model of `solana.FindProgramAddress` from the external
`solana-go` dependency: a deterministic function from (seed list,
program id) to an optional (address, bump) pair; `none` models the
derivation-exhaustion error.  Determinism is inherent: it is a function. -/
structure DerivationOracle where
  find : List (List Nat) → PublicKey → Option (PublicKey × Nat)

/-- Model of the SDK `Client` struct.  The Go struct also carries an
`rpcClient` transport handle; the transport is passed explicitly to the
operations that use it (the pure instruction builders never touch it). -/
structure Client where
  programID : PublicKey
deriving DecidableEq, Repr

/-- Model of `solana.AccountMeta`. -/
structure AccountMeta where
  publicKey : PublicKey
  isWritable : Bool
  isSigner : Bool
deriving DecidableEq, Repr

/-- Model of a built `solana.Instruction` (`solana.NewInstruction`). -/
structure Instruction where
  programID : PublicKey
  accounts : List AccountMeta
  data : List Nat
deriving DecidableEq, Repr

/-- Bytes of the string literal `"grid"`. -/
def gridSeedBytes : List Nat := [103, 114, 105, 100]

/-- Bytes of the string literal `"producer"`. -/
def producerSeedBytes : List Nat := [112, 114, 111, 100, 117, 99, 101, 114]

/-- Bytes of the string literal `"consumer"`. -/
def consumerSeedBytes : List Nat := [99, 111, 110, 115, 117, 109, 101, 114]

/-- Bytes of the string literal `"mint"`. -/
def mintSeedBytes : List Nat := [109, 105, 110, 116]

/-- Bytes of the string literal `"listing"`. -/
def listingSeedBytes : List Nat := [108, 105, 115, 116, 105, 110, 103]

/-- Go `Client.DeriveGridAccountPDA`: seeds `["grid", grid.Bytes()]`. -/
def Client.DeriveGridAccountPDA (c : Client) (o : DerivationOracle)
    (grid : PublicKey) : Option (PublicKey × Nat) :=
  o.find [gridSeedBytes, grid.bytes] c.programID

/-- Go `Client.DeriveProducerAccountPDA`: seeds `["producer", producer.Bytes()]`. -/
def Client.DeriveProducerAccountPDA (c : Client) (o : DerivationOracle)
    (producer : PublicKey) : Option (PublicKey × Nat) :=
  o.find [producerSeedBytes, producer.bytes] c.programID

/-- Go `Client.DeriveConsumerAccountPDA`: seeds `["consumer", consumer.Bytes()]`. -/
def Client.DeriveConsumerAccountPDA (c : Client) (o : DerivationOracle)
    (consumer : PublicKey) : Option (PublicKey × Nat) :=
  o.find [consumerSeedBytes, consumer.bytes] c.programID

/-- Go `Client.DeriveMintRecordPDA`: seeds
`["mint", producer.Bytes(), amountBytes (8B LE), {energyType}]`. -/
def Client.DeriveMintRecordPDA (c : Client) (o : DerivationOracle)
    (producer : PublicKey) (amount : Nat) (energyType : Nat) :
    Option (PublicKey × Nat) :=
  o.find [mintSeedBytes, producer.bytes, u64le amount, [energyType]] c.programID

/-- Go `Client.DeriveListingAccountPDA`: seeds
`["listing", producer.Bytes(), amountBytes (8B LE), priceBytes (8B LE), {energyType}]`. -/
def Client.DeriveListingAccountPDA (c : Client) (o : DerivationOracle)
    (producer : PublicKey) (amount priceLamports : Nat) (energyType : Nat) :
    Option (PublicKey × Nat) :=
  o.find [listingSeedBytes, producer.bytes, u64le amount, u64le priceLamports,
    [energyType]] c.programID

/-- Instruction discriminator `InitializeGridDiscriminator`. -/
def InitializeGridDiscriminator : List Nat := [175, 175, 109, 31, 13, 152, 155, 237]

/-- Instruction discriminator `InitializeProducerDiscriminator`. -/
def InitializeProducerDiscriminator : List Nat := [12, 51, 59, 67, 52, 36, 206, 188]

/-- Instruction discriminator `InitializeConsumerDiscriminator`. -/
def InitializeConsumerDiscriminator : List Nat := [111, 17, 185, 250, 60, 122, 38, 254]

/-- Instruction discriminator `MintEnergyTokensDiscriminator`. -/
def MintEnergyTokensDiscriminator : List Nat := [145, 138, 166, 112, 142, 73, 199, 45]

/-- Instruction discriminator `ListTokensForSaleDiscriminator`. -/
def ListTokensForSaleDiscriminator : List Nat := [107, 233, 40, 72, 85, 36, 174, 155]

/-- Instruction discriminator `CancelListingDiscriminator`. -/
def CancelListingDiscriminator : List Nat := [232, 219, 223, 41, 219, 236, 220, 190]

/-- Instruction discriminator `BuyTokensDiscriminator`. -/
def BuyTokensDiscriminator : List Nat := [102, 6, 61, 18, 1, 218, 235, 234]

/-- Instruction discriminator `MintConsumptionTokensDiscriminator`. -/
def MintConsumptionTokensDiscriminator : List Nat := [134, 250, 50, 37, 82, 88, 162, 124]

/-- Go `GridAccountCreationParams`. -/
structure GridAccountCreationParams where
  Grid : PublicKey
  Authority : PublicKey
deriving DecidableEq, Repr

/-- Go `ProducerAccountCreationParams`. -/
structure ProducerAccountCreationParams where
  Producer : PublicKey
  Authority : PublicKey
deriving DecidableEq, Repr

/-- Go `ConsumerAccountCreationParams`. -/
structure ConsumerAccountCreationParams where
  Consumer : PublicKey
  Authority : PublicKey
deriving DecidableEq, Repr

/-- Go `MintRecordCreationParams`. -/
structure MintRecordCreationParams where
  Grid : PublicKey
  Producer : PublicKey
  Amount : Nat
  EnergyType : Nat
  GridAuthority : PublicKey
deriving DecidableEq, Repr

/-- Go `ListingAccountCreationParams`. -/
structure ListingAccountCreationParams where
  Producer : PublicKey
  Amount : Nat
  PriceLamports : Nat
  EnergyType : Nat
deriving DecidableEq, Repr

/-- Go `Client.InitializeGrid` (src/instructions.go). -/
def Client.InitializeGrid (c : Client) (o : DerivationOracle)
    (params : GridAccountCreationParams) : Except String Instruction :=
  if !ValidatePublicKey params.Grid then .error "invalid grid public key"
  else if !ValidatePublicKey params.Authority then .error "invalid authority public key"
  else
    match c.DeriveGridAccountPDA o params.Grid with
    | none => .error "failed to derive grid account PDA"
    | some (gridAccountPDA, _) =>
      .ok { programID := c.programID
            accounts := [
              { publicKey := gridAccountPDA, isWritable := true, isSigner := false },
              { publicKey := params.Grid, isWritable := false, isSigner := false },
              { publicKey := params.Authority, isWritable := true, isSigner := true },
              { publicKey := SystemProgramID, isWritable := false, isSigner := false }]
            data := InitializeGridDiscriminator }

/-- Go `Client.InitializeProducer` (src/instructions.go). -/
def Client.InitializeProducer (c : Client) (o : DerivationOracle)
    (params : ProducerAccountCreationParams) : Except String Instruction :=
  if !ValidatePublicKey params.Producer then .error "invalid producer public key"
  else if !ValidatePublicKey params.Authority then .error "invalid authority public key"
  else
    match c.DeriveProducerAccountPDA o params.Producer with
    | none => .error "failed to derive producer account PDA"
    | some (producerAccountPDA, _) =>
      .ok { programID := c.programID
            accounts := [
              { publicKey := producerAccountPDA, isWritable := true, isSigner := false },
              { publicKey := params.Producer, isWritable := false, isSigner := false },
              { publicKey := params.Authority, isWritable := true, isSigner := true },
              { publicKey := SystemProgramID, isWritable := false, isSigner := false }]
            data := InitializeProducerDiscriminator }

/-- Go `Client.InitializeConsumer` (src/instructions.go). -/
def Client.InitializeConsumer (c : Client) (o : DerivationOracle)
    (params : ConsumerAccountCreationParams) : Except String Instruction :=
  if !ValidatePublicKey params.Consumer then .error "invalid consumer public key"
  else if !ValidatePublicKey params.Authority then .error "invalid authority public key"
  else
    match c.DeriveConsumerAccountPDA o params.Consumer with
    | none => .error "failed to derive consumer account PDA"
    | some (consumerAccountPDA, _) =>
      .ok { programID := c.programID
            accounts := [
              { publicKey := consumerAccountPDA, isWritable := true, isSigner := false },
              { publicKey := params.Consumer, isWritable := false, isSigner := false },
              { publicKey := params.Authority, isWritable := true, isSigner := true },
              { publicKey := SystemProgramID, isWritable := false, isSigner := false }]
            data := InitializeConsumerDiscriminator }

/-- Go `Client.MintEnergyTokens` (src/instructions.go).  The borsh
serialization of `{Amount uint64, EnergyType uint8}` is the 8 LE bytes of
the amount followed by the energy-type byte. -/
def Client.MintEnergyTokens (c : Client) (o : DerivationOracle)
    (params : MintRecordCreationParams) : Except String Instruction :=
  if !ValidatePublicKey params.Grid then .error "invalid grid public key"
  else if !ValidatePublicKey params.Producer then .error "invalid producer public key"
  else if !ValidatePublicKey params.GridAuthority then .error "invalid grid authority public key"
  else if !ValidateAmount params.Amount then .error "invalid amount"
  else if !IsValidEnergyType params.EnergyType then .error "invalid energy type"
  else
    match c.DeriveProducerAccountPDA o params.Producer with
    | none => .error "failed to derive producer account PDA"
    | some (producerAccountPDA, _) =>
      match c.DeriveGridAccountPDA o params.Grid with
      | none => .error "failed to derive grid account PDA"
      | some (gridAccountPDA, _) =>
        match c.DeriveMintRecordPDA o params.Producer params.Amount params.EnergyType with
        | none => .error "failed to derive mint record PDA"
        | some (mintRecordPDA, _) =>
          .ok { programID := c.programID
                accounts := [
                  { publicKey := producerAccountPDA, isWritable := true, isSigner := false },
                  { publicKey := gridAccountPDA, isWritable := false, isSigner := false },
                  { publicKey := mintRecordPDA, isWritable := true, isSigner := false },
                  { publicKey := params.Producer, isWritable := false, isSigner := false },
                  { publicKey := params.GridAuthority, isWritable := true, isSigner := true },
                  { publicKey := SystemProgramID, isWritable := false, isSigner := false }]
                data := MintEnergyTokensDiscriminator ++ u64le params.Amount ++ [params.EnergyType] }

/-- Go `Client.ListTokensForSale` (src/instructions.go).  The borsh
serialization of `{Amount uint64, PriceLamports uint64, EnergyType uint8}`
is 8 LE bytes of amount, 8 LE bytes of price, the energy-type byte. -/
def Client.ListTokensForSale (c : Client) (o : DerivationOracle)
    (params : ListingAccountCreationParams) : Except String Instruction :=
  if !ValidatePublicKey params.Producer then .error "invalid producer public key"
  else if !ValidateAmount params.Amount then .error "invalid amount"
  else if !ValidatePrice params.PriceLamports then .error "invalid price"
  else if !IsValidEnergyType params.EnergyType then .error "invalid energy type"
  else
    match c.DeriveProducerAccountPDA o params.Producer with
    | none => .error "failed to derive producer account PDA"
    | some (producerAccountPDA, _) =>
      match c.DeriveListingAccountPDA o params.Producer params.Amount params.PriceLamports
          params.EnergyType with
      | none => .error "failed to derive listing account PDA"
      | some (listingAccountPDA, _) =>
        .ok { programID := c.programID
              accounts := [
                { publicKey := producerAccountPDA, isWritable := true, isSigner := false },
                { publicKey := listingAccountPDA, isWritable := true, isSigner := false },
                { publicKey := params.Producer, isWritable := true, isSigner := true },
                { publicKey := SystemProgramID, isWritable := false, isSigner := false }]
              data := ListTokensForSaleDiscriminator ++ u64le params.Amount ++
                u64le params.PriceLamports ++ [params.EnergyType] }

/-- Go `Client.CancelListing` (src/instructions.go).  Note: only the
producer public key is validated; amount, price and energy type are used
for derivation without validation. -/
def Client.CancelListing (c : Client) (o : DerivationOracle)
    (producer : PublicKey) (amount priceLamports : Nat) (energyType : Nat) :
    Except String Instruction :=
  if !ValidatePublicKey producer then .error "invalid producer public key"
  else
    match c.DeriveListingAccountPDA o producer amount priceLamports energyType with
    | none => .error "failed to derive listing account PDA"
    | some (listingAccountPDA, _) =>
      match c.DeriveProducerAccountPDA o producer with
      | none => .error "failed to derive producer account PDA"
      | some (producerAccountPDA, _) =>
        .ok { programID := c.programID
              accounts := [
                { publicKey := listingAccountPDA, isWritable := true, isSigner := false },
                { publicKey := producerAccountPDA, isWritable := true, isSigner := false },
                { publicKey := producer, isWritable := true, isSigner := true }]
              data := CancelListingDiscriminator }

/-- Go `Client.BuyTokens` (src/instructions.go).  Only the buyer and
producer public keys are validated; the instruction data is the
discriminator followed by the raw 32 bytes of the derived listing PDA. -/
def Client.BuyTokens (c : Client) (o : DerivationOracle)
    (buyer producer : PublicKey) (amount priceLamports : Nat) (energyType : Nat) :
    Except String Instruction :=
  if !ValidatePublicKey buyer then .error "invalid buyer public key"
  else if !ValidatePublicKey producer then .error "invalid producer public key"
  else
    match c.DeriveListingAccountPDA o producer amount priceLamports energyType with
    | none => .error "failed to derive listing account PDA"
    | some (listingAccountPDA, _) =>
      match c.DeriveConsumerAccountPDA o buyer with
      | none => .error "failed to derive consumer account PDA"
      | some (consumerAccountPDA, _) =>
        .ok { programID := c.programID
              accounts := [
                { publicKey := listingAccountPDA, isWritable := true, isSigner := false },
                { publicKey := consumerAccountPDA, isWritable := true, isSigner := false },
                { publicKey := producer, isWritable := true, isSigner := false },
                { publicKey := buyer, isWritable := true, isSigner := true },
                { publicKey := SystemProgramID, isWritable := false, isSigner := false }]
              data := BuyTokensDiscriminator ++ listingAccountPDA.bytes }

/-- Go `Client.MintConsumptionTokens` (src/instructions.go). -/
def Client.MintConsumptionTokens (c : Client) (o : DerivationOracle)
    (consumer grid gridAuthority : PublicKey) (amount : Nat) :
    Except String Instruction :=
  if !ValidatePublicKey consumer then .error "invalid consumer public key"
  else if !ValidatePublicKey grid then .error "invalid grid public key"
  else if !ValidatePublicKey gridAuthority then .error "invalid grid authority public key"
  else if !ValidateAmount amount then .error "invalid amount"
  else
    match c.DeriveConsumerAccountPDA o consumer with
    | none => .error "failed to derive consumer account PDA"
    | some (consumerAccountPDA, _) =>
      match c.DeriveGridAccountPDA o grid with
      | none => .error "failed to derive grid account PDA"
      | some (gridAccountPDA, _) =>
        .ok { programID := c.programID
              accounts := [
                { publicKey := consumerAccountPDA, isWritable := true, isSigner := false },
                { publicKey := gridAccountPDA, isWritable := false, isSigner := false },
                { publicKey := gridAuthority, isWritable := true, isSigner := true }]
              data := MintConsumptionTokensDiscriminator ++ u64le amount }

/-!
Send-and-confirm polling loop (src/client.go `SendAndConfirmTransaction`).
The RPC transport's `GetSignatureStatuses` answer on attempt `i` is modelled
by a function `poll : Nat → PollResult`; context cancellation during the
1-second wait of iteration `i` is modelled by `cancelledAt = some i`.
Real-time sleeping is not modelled; the loop structure and the number of
polls are.
-/

/-- `rpc.ConfirmationStatus` values relevant to the loop. -/
inductive ConfirmationStatus
  | processed
  | confirmed
  | finalized
deriving DecidableEq, Repr

/-- Outcome of one `GetSignatureStatuses` call: an RPC error, an empty or
nil status entry, or a reported confirmation status. -/
inductive PollResult
  | rpcError
  | noStatus
  | status (s : ConfirmationStatus)
deriving DecidableEq, Repr

/-- The Go condition `err == nil && len(status.Value) > 0 &&
status.Value[0] != nil && ConfirmationStatus == Finalized`. -/
def pollIsFinalized : PollResult → Bool
  | .status .finalized => true
  | _ => false

/-- The confirmation loop body of `SendAndConfirmTransaction`, from
iteration `i` with `budget` iterations left.  Returns the number of
`GetSignatureStatuses` polls performed and the error produced by the loop
(`none` unless the context is cancelled during a wait).  The loop breaks
right after a finalized poll (before any wait); otherwise it waits, during
which cancellation may fire. -/
def confirmLoop (poll : Nat → PollResult) (cancelledAt : Option Nat) :
    Nat → Nat → Nat × Option String
  | _, 0 => (0, none)
  | i, budget + 1 =>
    if pollIsFinalized (poll i) then (1, none)
    else if cancelledAt = some i then (1, some "context canceled")
    else
      let r := confirmLoop poll cancelledAt (i + 1) budget
      (1 + r.1, r.2)

/-- Result of `SendAndConfirmTransaction` after a successful send: the
signature it returns, the error it returns, and how many status polls it
performed. -/
structure ConfirmOutcome where
  signature : List Nat
  error : Option String
  polls : Nat
deriving DecidableEq, Repr

/-- Go `Client.SendAndConfirmTransaction` (src/client.go), modelled from
the point where `SendTransaction` has succeeded and produced `sig`: runs
the 30-iteration confirmation loop and returns `sig`; the only error path
is context cancellation, and budget exhaustion returns the signature with a
nil error. -/
def SendAndConfirmTransaction (poll : Nat → PollResult) (cancelledAt : Option Nat)
    (sig : List Nat) : ConfirmOutcome :=
  let r := confirmLoop poll cancelledAt 0 30
  { signature := sig, error := r.2, polls := r.1 }

/-!
Account fetchers (src/client.go).  The transport answer of
`rpcClient.GetAccountInfo` at an address is modelled by a function
`PublicKey → TransportResult`.  The Go fetchers slice the returned data
unconditionally with `data[8:]`; a Go out-of-range slice panic is modelled
as `Option.none` around the whole fetcher result.
-/

/-- Outcome of `GetAccountInfo`: an RPC error, a nil `Value` (account does
not exist), or the account's raw data bytes. -/
inductive TransportResult
  | rpcError
  | notFound
  | found (data : List Nat)
deriving DecidableEq, Repr

/-- The Go slice expression `data[8:]`: defined when `8 ≤ len(data)`,
otherwise a runtime panic, modelled as `none`. -/
def goSliceFrom8 (data : List Nat) : Option (List Nat) :=
  if 8 ≤ data.length then some (data.drop 8) else none

/-- Read one byte (borsh `uint8`). -/
def readU8 : List Nat → Except String (Nat × List Nat)
  | [] => .error "unexpected end of data"
  | b :: rest => .ok (b, rest)

/-- Read `n` raw bytes. -/
def readBytesN (n : Nat) (bs : List Nat) : Except String (List Nat × List Nat) :=
  if n ≤ bs.length then .ok (bs.take n, bs.drop n)
  else .error "unexpected end of data"

/-- Value of a little-endian byte list. -/
def leValue (bs : List Nat) : Nat :=
  bs.foldr (fun b acc => acc * 256 + b) 0

/-- Read a borsh `uint64` (8 LE bytes). -/
def readU64 (bs : List Nat) : Except String (Nat × List Nat) :=
  match readBytesN 8 bs with
  | .error e => .error e
  | .ok (w, rest) => .ok (leValue w, rest)

/-- Read a borsh `int64` (8 LE bytes, two's complement). -/
def readI64 (bs : List Nat) : Except String (Int × List Nat) :=
  match readBytesN 8 bs with
  | .error e => .error e
  | .ok (w, rest) =>
    let n := leValue w
    .ok (if n < 2 ^ 63 then (n : Int) else (n : Int) - 2 ^ 64, rest)

/-- Read a 32-byte public key. -/
def readPublicKey (bs : List Nat) : Except String (PublicKey × List Nat) :=
  match readBytesN 32 bs with
  | .error e => .error e
  | .ok (w, rest) => .ok (⟨w⟩, rest)

/-- Read a borsh `bool` (one byte). -/
def readBool : List Nat → Except String (Bool × List Nat)
  | [] => .error "unexpected end of data"
  | b :: rest => .ok (b == 1, rest)

/-- Go `GridAccount` struct. -/
structure GridAccount where
  IsActive : Bool
deriving DecidableEq, Repr

/-- Go `ProducerAccount` struct. -/
structure ProducerAccount where
  Balance : Nat
deriving DecidableEq, Repr

/-- Go `ConsumerAccount` struct. -/
structure ConsumerAccount where
  Consumption : Nat
deriving DecidableEq, Repr

/-- Go `MintRecord` struct. -/
structure MintRecord where
  Grid : PublicKey
  Producer : PublicKey
  Amount : Nat
  EnergyType : Nat
  Timestamp : Int
deriving DecidableEq, Repr

/-- Go `ListingAccount` struct. -/
structure ListingAccount where
  Producer : PublicKey
  Amount : Nat
  PriceLamports : Nat
  EnergyType : Nat
  IsActive : Bool
  CreatedAt : Int
deriving DecidableEq, Repr

/-- `borsh.Deserialize` into `GridAccount`. -/
def deserializeGridAccount (bs : List Nat) : Except String GridAccount :=
  match readBool bs with
  | .error e => .error e
  | .ok (b, _) => .ok ⟨b⟩

/-- `borsh.Deserialize` into `ProducerAccount`. -/
def deserializeProducerAccount (bs : List Nat) : Except String ProducerAccount :=
  match readU64 bs with
  | .error e => .error e
  | .ok (v, _) => .ok ⟨v⟩

/-- `borsh.Deserialize` into `ConsumerAccount`. -/
def deserializeConsumerAccount (bs : List Nat) : Except String ConsumerAccount :=
  match readU64 bs with
  | .error e => .error e
  | .ok (v, _) => .ok ⟨v⟩

/-- `borsh.Deserialize` into `MintRecord`. -/
def deserializeMintRecord (bs : List Nat) : Except String MintRecord :=
  match readPublicKey bs with
  | .error e => .error e
  | .ok (grid, bs) =>
    match readPublicKey bs with
    | .error e => .error e
    | .ok (producer, bs) =>
      match readU64 bs with
      | .error e => .error e
      | .ok (amount, bs) =>
        match readU8 bs with
        | .error e => .error e
        | .ok (et, bs) =>
          match readI64 bs with
          | .error e => .error e
          | .ok (ts, _) => .ok ⟨grid, producer, amount, et, ts⟩

/-- `borsh.Deserialize` into `ListingAccount`. -/
def deserializeListingAccount (bs : List Nat) : Except String ListingAccount :=
  match readPublicKey bs with
  | .error e => .error e
  | .ok (producer, bs) =>
    match readU64 bs with
    | .error e => .error e
    | .ok (amount, bs) =>
      match readU64 bs with
      | .error e => .error e
      | .ok (price, bs) =>
        match readU8 bs with
        | .error e => .error e
        | .ok (et, bs) =>
          match readBool bs with
          | .error e => .error e
          | .ok (active, bs) =>
            match readI64 bs with
            | .error e => .error e
            | .ok (created, _) => .ok ⟨producer, amount, price, et, active, created⟩

/-- Go `Client.GetGridAccount` (src/client.go).  `none` models the Go
panic on `data[8:]` when the account data is shorter than 8 bytes. -/
def Client.GetGridAccount (c : Client) (o : DerivationOracle)
    (transport : PublicKey → TransportResult) (gridPubkey : PublicKey) :
    Option (Except String GridAccount) :=
  match c.DeriveGridAccountPDA o gridPubkey with
  | none => some (.error "failed to derive grid account PDA")
  | some (gridAccountPDA, _) =>
    match transport gridAccountPDA with
    | .rpcError => some (.error "failed to get grid account info")
    | .notFound => some (.error "grid account not found")
    | .found data =>
      match goSliceFrom8 data with
      | none => none
      | some body =>
        match deserializeGridAccount body with
        | .error _ => some (.error "failed to deserialize grid account")
        | .ok a => some (.ok a)

/-- Go `Client.GetProducerAccount` (src/client.go). -/
def Client.GetProducerAccount (c : Client) (o : DerivationOracle)
    (transport : PublicKey → TransportResult) (producerPubkey : PublicKey) :
    Option (Except String ProducerAccount) :=
  match c.DeriveProducerAccountPDA o producerPubkey with
  | none => some (.error "failed to derive producer account PDA")
  | some (producerAccountPDA, _) =>
    match transport producerAccountPDA with
    | .rpcError => some (.error "failed to get producer account info")
    | .notFound => some (.error "producer account not found")
    | .found data =>
      match goSliceFrom8 data with
      | none => none
      | some body =>
        match deserializeProducerAccount body with
        | .error _ => some (.error "failed to deserialize producer account")
        | .ok a => some (.ok a)

/-- Go `Client.GetConsumerAccount` (src/client.go). -/
def Client.GetConsumerAccount (c : Client) (o : DerivationOracle)
    (transport : PublicKey → TransportResult) (consumerPubkey : PublicKey) :
    Option (Except String ConsumerAccount) :=
  match c.DeriveConsumerAccountPDA o consumerPubkey with
  | none => some (.error "failed to derive consumer account PDA")
  | some (consumerAccountPDA, _) =>
    match transport consumerAccountPDA with
    | .rpcError => some (.error "failed to get consumer account info")
    | .notFound => some (.error "consumer account not found")
    | .found data =>
      match goSliceFrom8 data with
      | none => none
      | some body =>
        match deserializeConsumerAccount body with
        | .error _ => some (.error "failed to deserialize consumer account")
        | .ok a => some (.ok a)

/-- Go `Client.GetListingAccount` (src/client.go). -/
def Client.GetListingAccount (c : Client) (o : DerivationOracle)
    (transport : PublicKey → TransportResult) (producer : PublicKey)
    (amount priceLamports : Nat) (energyType : Nat) :
    Option (Except String ListingAccount) :=
  match c.DeriveListingAccountPDA o producer amount priceLamports energyType with
  | none => some (.error "failed to derive listing account PDA")
  | some (listingAccountPDA, _) =>
    match transport listingAccountPDA with
    | .rpcError => some (.error "failed to get listing account info")
    | .notFound => some (.error "listing account not found")
    | .found data =>
      match goSliceFrom8 data with
      | none => none
      | some body =>
        match deserializeListingAccount body with
        | .error _ => some (.error "failed to deserialize listing account")
        | .ok a => some (.ok a)

/-- Go `Client.GetMintRecord` (src/client.go). -/
def Client.GetMintRecord (c : Client) (o : DerivationOracle)
    (transport : PublicKey → TransportResult) (producer : PublicKey)
    (amount : Nat) (energyType : Nat) :
    Option (Except String MintRecord) :=
  match c.DeriveMintRecordPDA o producer amount energyType with
  | none => some (.error "failed to derive mint record PDA")
  | some (mintRecordPDA, _) =>
    match transport mintRecordPDA with
    | .rpcError => some (.error "failed to get mint record info")
    | .notFound => some (.error "mint record not found")
    | .found data =>
      match goSliceFrom8 data with
      | none => none
      | some body =>
        match deserializeMintRecord body with
        | .error _ => some (.error "failed to deserialize mint record")
        | .ok a => some (.ok a)

/-- `true` iff an instruction-builder result is a built instruction rather
than an error. -/
def builderOk (e : Except String Instruction) : Bool :=
  match e with
  | .ok _ => true
  | .error _ => false

/-!  Concrete values used by witnesses and counterexamples.  -/

/-- A concrete nonzero public key (all bytes 1). -/
def pkOnes : PublicKey := ⟨List.replicate 32 1⟩

/-- A concrete nonzero public key (all bytes 2). -/
def pkTwos : PublicKey := ⟨List.replicate 32 2⟩

/-- A concrete nonzero public key (all bytes 3). -/
def pkThrees : PublicKey := ⟨List.replicate 32 3⟩

/-- A concrete derivation oracle that always succeeds, returning a fixed
address and bump 255. -/
def constOracle : DerivationOracle :=
  ⟨fun _ _ => some (⟨List.replicate 32 7⟩, 255)⟩

/-- A concrete client (the program id is the mainnet one's role; its exact
bytes are irrelevant to the claims). -/
def testClient : Client := ⟨pkThrees⟩

/-- A second concrete client with a different program id. -/
def testClientB : Client := ⟨pkTwos⟩

/-- A derivation oracle that always fails (used to witness oracle
independence of validation errors). -/
def noneOracle : DerivationOracle := ⟨fun _ _ => none⟩

/-- The zero public key, as a caller-supplied invalid identifier. -/
def zeroPk : PublicKey := ⟨List.replicate 32 0⟩

/-- C7: the mint-record seed sequence is "mint" bytes, producer bytes,
amount as 8-byte little-endian, one energy-type byte; the listing seed
sequence is "listing" bytes, producer bytes, amount (8B LE), price (8B LE),
one energy-type byte; and the 8-byte little-endian encoding has length 8
and denotes the amount modulo 2^64. -/
theorem mint_and_listing_seed_sequences (c : Client) (o : DerivationOracle)
    (producer : PublicKey) (amount price et : Nat) :
    c.DeriveMintRecordPDA o producer amount et =
      o.find [[109, 105, 110, 116], producer.bytes,
        [amount % 256, amount / 256 % 256, amount / 256 ^ 2 % 256, amount / 256 ^ 3 % 256,
         amount / 256 ^ 4 % 256, amount / 256 ^ 5 % 256, amount / 256 ^ 6 % 256,
         amount / 256 ^ 7 % 256], [et]] c.programID ∧
    c.DeriveListingAccountPDA o producer amount price et =
      o.find [[108, 105, 115, 116, 105, 110, 103], producer.bytes,
        u64le amount, u64le price, [et]] c.programID ∧
    (u64le amount).length = 8 ∧
    leValue (u64le amount) = amount % 2 ^ 64 := by
  refine ⟨rfl, rfl, rfl, ?_⟩
  simp only [u64le, leValue, List.foldr]
  omega

/-- C8: InitializeGrid with a zero grid identifier returns the validation
error, and the result is independent of the derivation oracle (no address
derivation is consulted); the builder takes no transport handle at all, so
no network call can occur. -/
theorem initializeGrid_zero_grid_validation (c : Client)
    (params : GridAccountCreationParams) (o o' : DerivationOracle)
    (h : params.Grid.IsZero = true) :
    c.InitializeGrid o params = .error "invalid grid public key" ∧
    c.InitializeGrid o params = c.InitializeGrid o' params := by
  constructor <;> simp [Client.InitializeGrid, ValidatePublicKey, h]

/-- Witness for C8 at a concrete zero grid key and two distinct oracles. -/
theorem initializeGrid_zero_grid_validation_witness :
    testClient.InitializeGrid constOracle ⟨zeroPk, pkOnes⟩ =
      .error "invalid grid public key" ∧
    testClient.InitializeGrid constOracle ⟨zeroPk, pkOnes⟩ =
      testClient.InitializeGrid noneOracle ⟨zeroPk, pkOnes⟩ :=
  initializeGrid_zero_grid_validation testClient ⟨zeroPk, pkOnes⟩ constOracle
    noneOracle (by decide)

/-- C1 counterexample: CancelListing with amount = 0, price = 0 and
energy type 7 (outside {0,1,2,3}) builds an instruction instead of
returning a validation error, and so does BuyTokens: neither operation
validates amount, price or energy type. -/
theorem cancelListing_buyTokens_accept_invalid_numerics :
    builderOk (testClient.CancelListing constOracle pkOnes 0 0 7) = true ∧
    builderOk (testClient.BuyTokens constOracle pkTwos pkOnes 0 0 7) = true := by
  decide

/-- C2: if none of the 30 status polls reports finalized (and the context
is not cancelled), SendAndConfirmTransaction performs all 30 polls and
still returns the signature with no error. -/
theorem sendAndConfirm_timeout_returns_signature (poll : Nat → PollResult)
    (sig : List Nat) (h : ∀ i, i < 30 → pollIsFinalized (poll i) = false) :
    SendAndConfirmTransaction poll none sig =
      { signature := sig, error := none, polls := 30 } := by
  have key : ∀ budget i, (∀ j, i ≤ j → j < i + budget → pollIsFinalized (poll j) = false) →
      confirmLoop poll none i budget = (budget, none) := by
    intro budget
    induction budget with
    | zero => intro i _; rfl
    | succ b ih =>
      intro i hall
      rw [confirmLoop, hall i le_rfl (by omega)]
      simp only [Bool.false_eq_true, if_false, reduceCtorEq, if_neg]
      rw [ih (i + 1) (fun j hj1 hj2 => hall j (by omega) (by omega))]
      simp [Nat.add_comm]
  simp [SendAndConfirmTransaction, key 30 0 (fun j _ hj => h j (by omega))]

/-- Witness for C2: a transport that never reports finality yields 30
polls and a success-shaped result. -/
theorem sendAndConfirm_timeout_returns_signature_witness :
    SendAndConfirmTransaction (fun _ => PollResult.noStatus) none [1] =
      { signature := [1], error := none, polls := 30 } :=
  sendAndConfirm_timeout_returns_signature (fun _ => PollResult.noStatus) [1]
    (fun _ _ => rfl)

/-- C3: the confirmation loop performs one status poll per iteration and
stops at the first poll reporting finalized: if attempts 1..n report
non-finalized and attempt n+1 (index n, n < 30) reports finalized, exactly
n+1 polls are performed, within the budget of 30; in particular finalized
on attempt 3 means exactly 3 polls. -/
theorem sendAndConfirm_stops_at_first_finalized (poll : Nat → PollResult)
    (sig : List Nat) (n : Nat) (hn : n < 30)
    (hfirst : ∀ j, j < n → pollIsFinalized (poll j) = false)
    (hfin : pollIsFinalized (poll n) = true) :
    (SendAndConfirmTransaction poll none sig).polls = n + 1 ∧ n + 1 ≤ 30 := by
  have key : ∀ m i budget, m < budget →
      (∀ j, j < m → pollIsFinalized (poll (i + j)) = false) →
      pollIsFinalized (poll (i + m)) = true →
      confirmLoop poll none i budget = (m + 1, none) := by
    intro m
    induction m with
    | zero =>
      intro i budget hb hf hfin0
      cases budget with
      | zero => omega
      | succ b =>
        rw [confirmLoop]
        simp only [Nat.add_zero] at hfin0
        rw [hfin0]
        simp
    | succ m ih =>
      intro i budget hb hf hfin1
      cases budget with
      | zero => omega
      | succ b =>
        rw [confirmLoop]
        have h0 : pollIsFinalized (poll i) = false := by
          have := hf 0 (by omega)
          simpa using this
        rw [h0]
        simp only [Bool.false_eq_true, if_false, reduceCtorEq, if_neg]
        rw [ih (i + 1) b (by omega)
          (fun j hj => by
            rw [show i + 1 + j = i + (j + 1) from by omega]
            exact hf (j + 1) (by omega))
          (by
            rw [show i + 1 + m = i + (m + 1) from by omega]
            exact hfin1)]
        simp [Nat.add_comm]
  constructor
  · have hk := key n 0 30 hn (fun j hj => by simpa using hfirst j hj) (by simpa using hfin)
    simp [SendAndConfirmTransaction, hk]
  · omega

/-- Witness for C3: a transport finalized on poll attempt 3 (index 2)
yields exactly 3 polls. -/
theorem sendAndConfirm_stops_at_first_finalized_witness :
    (SendAndConfirmTransaction
      (fun i => if i = 2 then PollResult.status ConfirmationStatus.finalized
        else PollResult.noStatus) none [1]).polls = 3 ∧ 3 ≤ 30 :=
  sendAndConfirm_stops_at_first_finalized
    (fun i => if i = 2 then PollResult.status ConfirmationStatus.finalized
      else PollResult.noStatus) [1] 2 (by omega) (by decide) (by decide)

/-- C4: for valid parameters, MintEnergyTokens assembles exactly the
account list (producer-PDA writable non-signer, grid-PDA read-only
non-signer, mint-record-PDA writable non-signer, producer id read-only
non-signer, grid-authority writable signer, system program read-only
non-signer) in that order, with data = 8-byte opcode, amount as LE u64,
energy-type byte. -/
theorem mintEnergyTokens_accounts_and_data (c : Client) (o : DerivationOracle)
    (params : MintRecordCreationParams) (ppda gpda mpda : PublicKey)
    (bp bg bm : Nat)
    (hg : ValidatePublicKey params.Grid = true)
    (hp : ValidatePublicKey params.Producer = true)
    (ha : ValidatePublicKey params.GridAuthority = true)
    (ham : ValidateAmount params.Amount = true)
    (het : IsValidEnergyType params.EnergyType = true)
    (hd1 : c.DeriveProducerAccountPDA o params.Producer = some (ppda, bp))
    (hd2 : c.DeriveGridAccountPDA o params.Grid = some (gpda, bg))
    (hd3 : c.DeriveMintRecordPDA o params.Producer params.Amount params.EnergyType =
      some (mpda, bm)) :
    c.MintEnergyTokens o params = .ok
      { programID := c.programID
        accounts := [
          { publicKey := ppda, isWritable := true, isSigner := false },
          { publicKey := gpda, isWritable := false, isSigner := false },
          { publicKey := mpda, isWritable := true, isSigner := false },
          { publicKey := params.Producer, isWritable := false, isSigner := false },
          { publicKey := params.GridAuthority, isWritable := true, isSigner := true },
          { publicKey := SystemProgramID, isWritable := false, isSigner := false }]
        data := MintEnergyTokensDiscriminator ++ u64le params.Amount ++
          [params.EnergyType] } := by
  simp [Client.MintEnergyTokens, hg, hp, ha, ham, het, hd1, hd2, hd3]

/-- Witness for C4 at concrete parameters (amount 1000, energy type Solar)
with the constant oracle. -/
theorem mintEnergyTokens_accounts_and_data_witness :
    testClient.MintEnergyTokens constOracle
      ⟨pkOnes, pkTwos, 1000, EnergyTypeSolar, pkThrees⟩ = .ok
      { programID := pkThrees
        accounts := [
          { publicKey := ⟨List.replicate 32 7⟩, isWritable := true, isSigner := false },
          { publicKey := ⟨List.replicate 32 7⟩, isWritable := false, isSigner := false },
          { publicKey := ⟨List.replicate 32 7⟩, isWritable := true, isSigner := false },
          { publicKey := pkTwos, isWritable := false, isSigner := false },
          { publicKey := pkThrees, isWritable := true, isSigner := true },
          { publicKey := SystemProgramID, isWritable := false, isSigner := false }]
        data := MintEnergyTokensDiscriminator ++ u64le 1000 ++ [EnergyTypeSolar] } :=
  mintEnergyTokens_accounts_and_data testClient constOracle
    ⟨pkOnes, pkTwos, 1000, EnergyTypeSolar, pkThrees⟩
    ⟨List.replicate 32 7⟩ ⟨List.replicate 32 7⟩ ⟨List.replicate 32 7⟩ 255 255 255
    (by decide) (by decide) (by decide) (by decide) (by decide) rfl rfl rfl

/-- C5: for valid parameters, BuyTokens assembles exactly the account list
(listing-PDA writable non-signer, consumer-PDA writable non-signer,
producer writable non-signer, buyer writable signer, system program
read-only non-signer) in that order, with data = 8-byte opcode followed by
the raw 32 bytes of the derived listing address. -/
theorem buyTokens_accounts_and_data (c : Client) (o : DerivationOracle)
    (buyer producer : PublicKey) (amount priceLamports energyType : Nat)
    (lpda cpda : PublicKey) (bl bc : Nat)
    (hb : ValidatePublicKey buyer = true)
    (hp : ValidatePublicKey producer = true)
    (hd1 : c.DeriveListingAccountPDA o producer amount priceLamports energyType =
      some (lpda, bl))
    (hd2 : c.DeriveConsumerAccountPDA o buyer = some (cpda, bc)) :
    c.BuyTokens o buyer producer amount priceLamports energyType = .ok
      { programID := c.programID
        accounts := [
          { publicKey := lpda, isWritable := true, isSigner := false },
          { publicKey := cpda, isWritable := true, isSigner := false },
          { publicKey := producer, isWritable := true, isSigner := false },
          { publicKey := buyer, isWritable := true, isSigner := true },
          { publicKey := SystemProgramID, isWritable := false, isSigner := false }]
        data := BuyTokensDiscriminator ++ lpda.bytes } := by
  simp [Client.BuyTokens, hb, hp, hd1, hd2]

/-- Witness for C5 at concrete parameters with the constant oracle. -/
theorem buyTokens_accounts_and_data_witness :
    testClient.BuyTokens constOracle pkTwos pkOnes 500 1000000 EnergyTypeWind = .ok
      { programID := pkThrees
        accounts := [
          { publicKey := ⟨List.replicate 32 7⟩, isWritable := true, isSigner := false },
          { publicKey := ⟨List.replicate 32 7⟩, isWritable := true, isSigner := false },
          { publicKey := pkOnes, isWritable := true, isSigner := false },
          { publicKey := pkTwos, isWritable := true, isSigner := true },
          { publicKey := SystemProgramID, isWritable := false, isSigner := false }]
        data := BuyTokensDiscriminator ++ List.replicate 32 7 } :=
  buyTokens_accounts_and_data testClient constOracle pkTwos pkOnes 500 1000000
    EnergyTypeWind ⟨List.replicate 32 7⟩ ⟨List.replicate 32 7⟩ 255 255
    (by decide) (by decide) rfl rfl

/-- C6: listing-address derivation is a pure function of (producer,
amount, price, energy-type): under the same derivation oracle and client,
ListTokensForSale places the derived listing address at account index 1
and BuyTokens with the same tuple places the identical address at account
index 0, and repeated calls of DeriveListingAccountPDA with identical
inputs yield identical (address, bump) pairs. -/
theorem listing_pda_agreement (c : Client) (o : DerivationOracle)
    (buyer producer : PublicKey) (amount priceLamports energyType : Nat)
    (lpda ppda cpda : PublicKey) (bl bp bc : Nat)
    (hb : ValidatePublicKey buyer = true)
    (hp : ValidatePublicKey producer = true)
    (ham : ValidateAmount amount = true)
    (hpr : ValidatePrice priceLamports = true)
    (het : IsValidEnergyType energyType = true)
    (hd : c.DeriveListingAccountPDA o producer amount priceLamports energyType =
      some (lpda, bl))
    (hdp : c.DeriveProducerAccountPDA o producer = some (ppda, bp))
    (hdc : c.DeriveConsumerAccountPDA o buyer = some (cpda, bc)) :
    (c.ListTokensForSale o ⟨producer, amount, priceLamports, energyType⟩).map
      (fun i => (i.accounts.map AccountMeta.publicKey)[1]?) = .ok (some lpda) ∧
    (c.BuyTokens o buyer producer amount priceLamports energyType).map
      (fun i => (i.accounts.map AccountMeta.publicKey)[0]?) = .ok (some lpda) ∧
    c.DeriveListingAccountPDA o producer amount priceLamports energyType =
      c.DeriveListingAccountPDA o producer amount priceLamports energyType := by
  refine ⟨?_, ?_, rfl⟩
  · simp [Client.ListTokensForSale, hp, ham, hpr, het, hd, hdp, Except.map]
  · simp [Client.BuyTokens, hb, hp, hd, hdc, Except.map]

/-- Witness for C6 at the spec's concrete tuple (amount 500, price
1000000, energy type Wind). -/
theorem listing_pda_agreement_witness :
    (testClient.ListTokensForSale constOracle
      ⟨pkOnes, 500, 1000000, EnergyTypeWind⟩).map
      (fun i => (i.accounts.map AccountMeta.publicKey)[1]?) =
        .ok (some ⟨List.replicate 32 7⟩) ∧
    (testClient.BuyTokens constOracle pkTwos pkOnes 500 1000000
      EnergyTypeWind).map
      (fun i => (i.accounts.map AccountMeta.publicKey)[0]?) =
        .ok (some ⟨List.replicate 32 7⟩) ∧
    testClient.DeriveListingAccountPDA constOracle pkOnes 500 1000000
      EnergyTypeWind =
    testClient.DeriveListingAccountPDA constOracle pkOnes 500 1000000
      EnergyTypeWind :=
  listing_pda_agreement testClient constOracle pkTwos pkOnes 500 1000000
    EnergyTypeWind ⟨List.replicate 32 7⟩ ⟨List.replicate 32 7⟩
    ⟨List.replicate 32 7⟩ 255 255 255
    (by decide) (by decide) (by decide) (by decide) (by decide) rfl rfl rfl

/-- C9 counterexample: two client instances with different program ids,
given the same operation and parameters, emit identical opcodes — the
opcode is not determined by per-client configuration. -/
theorem opcode_same_across_clients :
    testClient.programID ≠ testClientB.programID ∧
    (testClient.InitializeGrid constOracle ⟨pkOnes, pkTwos⟩).map Instruction.data =
      (testClientB.InitializeGrid constOracle ⟨pkOnes, pkTwos⟩).map Instruction.data ∧
    (testClient.MintEnergyTokens constOracle
        ⟨pkOnes, pkTwos, 5, EnergyTypeSolar, pkThrees⟩).map (fun i => i.data.take 8) =
      (testClientB.MintEnergyTokens constOracle
        ⟨pkOnes, pkTwos, 5, EnergyTypeSolar, pkThrees⟩).map (fun i => i.data.take 8) := by
  refine ⟨by decide, rfl, rfl⟩

/-- C9 amended: the opcode table is a single hard-coded set of
package-level constants; for every client, oracle and parameters, each of
the 8 operations that builds an instruction emits the fixed discriminator
of that operation as the first 8 data bytes, independent of any per-client
configuration (which consists only of the program id). -/
theorem opcodes_fixed_constants (c : Client) (o : DerivationOracle) :
    (∀ p i, c.InitializeGrid o p = .ok i →
      i.data.take 8 = InitializeGridDiscriminator) ∧
    (∀ p i, c.InitializeProducer o p = .ok i →
      i.data.take 8 = InitializeProducerDiscriminator) ∧
    (∀ p i, c.InitializeConsumer o p = .ok i →
      i.data.take 8 = InitializeConsumerDiscriminator) ∧
    (∀ p i, c.MintEnergyTokens o p = .ok i →
      i.data.take 8 = MintEnergyTokensDiscriminator) ∧
    (∀ p i, c.ListTokensForSale o p = .ok i →
      i.data.take 8 = ListTokensForSaleDiscriminator) ∧
    (∀ producer amount price et i, c.CancelListing o producer amount price et = .ok i →
      i.data.take 8 = CancelListingDiscriminator) ∧
    (∀ buyer producer amount price et i,
      c.BuyTokens o buyer producer amount price et = .ok i →
      i.data.take 8 = BuyTokensDiscriminator) ∧
    (∀ consumer grid ga amount i,
      c.MintConsumptionTokens o consumer grid ga amount = .ok i →
      i.data.take 8 = MintConsumptionTokensDiscriminator) := by
  refine ⟨?_, ?_, ?_, ?_, ?_, ?_, ?_, ?_⟩
  · intro p i h
    unfold Client.InitializeGrid at h
    iterate 3 (split at h <;> try exact Except.noConfusion h)
    injection h with h
    subst h
    rfl
  · intro p i h
    unfold Client.InitializeProducer at h
    iterate 3 (split at h <;> try exact Except.noConfusion h)
    injection h with h
    subst h
    rfl
  · intro p i h
    unfold Client.InitializeConsumer at h
    iterate 3 (split at h <;> try exact Except.noConfusion h)
    injection h with h
    subst h
    rfl
  · intro p i h
    unfold Client.MintEnergyTokens at h
    iterate 8 (split at h <;> try exact Except.noConfusion h)
    injection h with h
    subst h
    rfl
  · intro p i h
    unfold Client.ListTokensForSale at h
    iterate 6 (split at h <;> try exact Except.noConfusion h)
    injection h with h
    subst h
    rfl
  · intro producer amount price et i h
    unfold Client.CancelListing at h
    iterate 3 (split at h <;> try exact Except.noConfusion h)
    injection h with h
    subst h
    rfl
  · intro buyer producer amount price et i h
    unfold Client.BuyTokens at h
    iterate 4 (split at h <;> try exact Except.noConfusion h)
    injection h with h
    subst h
    rfl
  · intro consumer grid ga amount i h
    unfold Client.MintConsumptionTokens at h
    iterate 6 (split at h <;> try exact Except.noConfusion h)
    injection h with h
    subst h
    rfl

/-- The instruction InitializeGrid builds for the C9 witness inputs. -/
def wGridInstr : Instruction :=
  { programID := pkThrees
    accounts := [
      { publicKey := ⟨List.replicate 32 7⟩, isWritable := true, isSigner := false },
      { publicKey := pkOnes, isWritable := false, isSigner := false },
      { publicKey := pkTwos, isWritable := true, isSigner := true },
      { publicKey := SystemProgramID, isWritable := false, isSigner := false }]
    data := InitializeGridDiscriminator }

/-- Witness for the C9 amended theorem at a concrete built instruction. -/
theorem opcodes_fixed_constants_witness :
    wGridInstr.data.take 8 = InitializeGridDiscriminator :=
  (opcodes_fixed_constants testClient constOracle).1 ⟨pkOnes, pkTwos⟩ wGridInstr
    rfl

/-- C1 amended: every one of the 8 operations validates every one of its
caller-supplied identifiers (a zero key yields a ValidationError,
independently of the derivation oracle), and numeric-parameter validation
is performed only by the operations that declare it — MintEnergyTokens
(amount, energy-type), ListTokensForSale (amount, price, energy-type) and
MintConsumptionTokens (amount); CancelListing and BuyTokens take amount,
price and energy-type but perform no validation on them and build an
instruction regardless of their values. -/
theorem builders_validation_amended (c : Client) (o : DerivationOracle) :
    (∀ p : GridAccountCreationParams, p.Grid.IsZero = true →
      c.InitializeGrid o p = .error "invalid grid public key") ∧
    (∀ p : GridAccountCreationParams, ValidatePublicKey p.Grid = true →
      p.Authority.IsZero = true →
      c.InitializeGrid o p = .error "invalid authority public key") ∧
    (∀ p : ProducerAccountCreationParams, p.Producer.IsZero = true →
      c.InitializeProducer o p = .error "invalid producer public key") ∧
    (∀ p : ProducerAccountCreationParams, ValidatePublicKey p.Producer = true →
      p.Authority.IsZero = true →
      c.InitializeProducer o p = .error "invalid authority public key") ∧
    (∀ p : ConsumerAccountCreationParams, p.Consumer.IsZero = true →
      c.InitializeConsumer o p = .error "invalid consumer public key") ∧
    (∀ p : ConsumerAccountCreationParams, ValidatePublicKey p.Consumer = true →
      p.Authority.IsZero = true →
      c.InitializeConsumer o p = .error "invalid authority public key") ∧
    (∀ p : MintRecordCreationParams, p.Grid.IsZero = true →
      c.MintEnergyTokens o p = .error "invalid grid public key") ∧
    (∀ p : MintRecordCreationParams, ValidatePublicKey p.Grid = true →
      p.Producer.IsZero = true →
      c.MintEnergyTokens o p = .error "invalid producer public key") ∧
    (∀ p : MintRecordCreationParams, ValidatePublicKey p.Grid = true →
      ValidatePublicKey p.Producer = true → p.GridAuthority.IsZero = true →
      c.MintEnergyTokens o p = .error "invalid grid authority public key") ∧
    (∀ p : ListingAccountCreationParams, p.Producer.IsZero = true →
      c.ListTokensForSale o p = .error "invalid producer public key") ∧
    (∀ producer amount price et, PublicKey.IsZero producer = true →
      c.CancelListing o producer amount price et =
        .error "invalid producer public key") ∧
    (∀ buyer producer amount price et, PublicKey.IsZero buyer = true →
      c.BuyTokens o buyer producer amount price et =
        .error "invalid buyer public key") ∧
    (∀ buyer producer amount price et, ValidatePublicKey buyer = true →
      PublicKey.IsZero producer = true →
      c.BuyTokens o buyer producer amount price et =
        .error "invalid producer public key") ∧
    (∀ consumer grid ga amount, PublicKey.IsZero consumer = true →
      c.MintConsumptionTokens o consumer grid ga amount =
        .error "invalid consumer public key") ∧
    (∀ consumer grid ga amount, ValidatePublicKey consumer = true →
      PublicKey.IsZero grid = true →
      c.MintConsumptionTokens o consumer grid ga amount =
        .error "invalid grid public key") ∧
    (∀ consumer grid ga amount, ValidatePublicKey consumer = true →
      ValidatePublicKey grid = true → PublicKey.IsZero ga = true →
      c.MintConsumptionTokens o consumer grid ga amount =
        .error "invalid grid authority public key") ∧
    (∀ p : MintRecordCreationParams, ValidatePublicKey p.Grid = true →
      ValidatePublicKey p.Producer = true → ValidatePublicKey p.GridAuthority = true →
      ValidateAmount p.Amount = false →
      c.MintEnergyTokens o p = .error "invalid amount") ∧
    (∀ p : MintRecordCreationParams, ValidatePublicKey p.Grid = true →
      ValidatePublicKey p.Producer = true → ValidatePublicKey p.GridAuthority = true →
      ValidateAmount p.Amount = true → IsValidEnergyType p.EnergyType = false →
      c.MintEnergyTokens o p = .error "invalid energy type") ∧
    (∀ p : ListingAccountCreationParams, ValidatePublicKey p.Producer = true →
      ValidateAmount p.Amount = false →
      c.ListTokensForSale o p = .error "invalid amount") ∧
    (∀ p : ListingAccountCreationParams, ValidatePublicKey p.Producer = true →
      ValidateAmount p.Amount = true → ValidatePrice p.PriceLamports = false →
      c.ListTokensForSale o p = .error "invalid price") ∧
    (∀ p : ListingAccountCreationParams, ValidatePublicKey p.Producer = true →
      ValidateAmount p.Amount = true → ValidatePrice p.PriceLamports = true →
      IsValidEnergyType p.EnergyType = false →
      c.ListTokensForSale o p = .error "invalid energy type") ∧
    (∀ consumer grid ga amount, ValidatePublicKey consumer = true →
      ValidatePublicKey grid = true → ValidatePublicKey ga = true →
      ValidateAmount amount = false →
      c.MintConsumptionTokens o consumer grid ga amount = .error "invalid amount") ∧
    (∀ producer amount price et, ValidatePublicKey producer = true →
      (∀ seeds pid, (o.find seeds pid).isSome = true) →
      builderOk (c.CancelListing o producer amount price et) = true) ∧
    (∀ buyer producer amount price et, ValidatePublicKey buyer = true →
      ValidatePublicKey producer = true →
      (∀ seeds pid, (o.find seeds pid).isSome = true) →
      builderOk (c.BuyTokens o buyer producer amount price et) = true) := by
  refine ⟨?_, ?_, ?_, ?_, ?_, ?_, ?_, ?_, ?_, ?_, ?_, ?_, ?_, ?_, ?_, ?_, ?_, ?_,
    ?_, ?_, ?_, ?_, ?_, ?_⟩
  · intro p h
    simp [Client.InitializeGrid, ValidatePublicKey, h]
  · intro p h1 h2
    have hv : ValidatePublicKey p.Authority = false := by
      simp [ValidatePublicKey, h2]
    simp [Client.InitializeGrid, h1, hv]
  · intro p h
    simp [Client.InitializeProducer, ValidatePublicKey, h]
  · intro p h1 h2
    have hv : ValidatePublicKey p.Authority = false := by
      simp [ValidatePublicKey, h2]
    simp [Client.InitializeProducer, h1, hv]
  · intro p h
    simp [Client.InitializeConsumer, ValidatePublicKey, h]
  · intro p h1 h2
    have hv : ValidatePublicKey p.Authority = false := by
      simp [ValidatePublicKey, h2]
    simp [Client.InitializeConsumer, h1, hv]
  · intro p h
    simp [Client.MintEnergyTokens, ValidatePublicKey, h]
  · intro p h1 h2
    have hv : ValidatePublicKey p.Producer = false := by
      simp [ValidatePublicKey, h2]
    simp [Client.MintEnergyTokens, h1, hv]
  · intro p h1 h2 h3
    have hv : ValidatePublicKey p.GridAuthority = false := by
      simp [ValidatePublicKey, h3]
    simp [Client.MintEnergyTokens, h1, h2, hv]
  · intro p h
    simp [Client.ListTokensForSale, ValidatePublicKey, h]
  · intro producer amount price et h
    simp [Client.CancelListing, ValidatePublicKey, h]
  · intro buyer producer amount price et h
    simp [Client.BuyTokens, ValidatePublicKey, h]
  · intro buyer producer amount price et h1 h2
    have hv : ValidatePublicKey producer = false := by
      simp [ValidatePublicKey, h2]
    simp [Client.BuyTokens, h1, hv]
  · intro consumer grid ga amount h
    simp [Client.MintConsumptionTokens, ValidatePublicKey, h]
  · intro consumer grid ga amount h1 h2
    have hv : ValidatePublicKey grid = false := by
      simp [ValidatePublicKey, h2]
    simp [Client.MintConsumptionTokens, h1, hv]
  · intro consumer grid ga amount h1 h2 h3
    have hv : ValidatePublicKey ga = false := by
      simp [ValidatePublicKey, h3]
    simp [Client.MintConsumptionTokens, h1, h2, hv]
  · intro p h1 h2 h3 h4
    simp [Client.MintEnergyTokens, h1, h2, h3, h4]
  · intro p h1 h2 h3 h4 h5
    simp [Client.MintEnergyTokens, h1, h2, h3, h4, h5]
  · intro p h1 h2
    simp [Client.ListTokensForSale, h1, h2]
  · intro p h1 h2 h3
    simp [Client.ListTokensForSale, h1, h2, h3]
  · intro p h1 h2 h3 h4
    simp [Client.ListTokensForSale, h1, h2, h3, h4]
  · intro consumer grid ga amount h1 h2 h3 h4
    simp [Client.MintConsumptionTokens, h1, h2, h3, h4]
  · intro producer amount price et hp ho
    obtain ⟨⟨lp, lb⟩, hl⟩ := Option.isSome_iff_exists.mp
      (ho [listingSeedBytes, producer.bytes, u64le amount, u64le price, [et]]
        c.programID)
    obtain ⟨⟨pp, pb⟩, hpp⟩ := Option.isSome_iff_exists.mp
      (ho [producerSeedBytes, producer.bytes] c.programID)
    simp [Client.CancelListing, Client.DeriveListingAccountPDA,
      Client.DeriveProducerAccountPDA, hp, hl, hpp, builderOk]
  · intro buyer producer amount price et hb hp ho
    obtain ⟨⟨lp, lb⟩, hl⟩ := Option.isSome_iff_exists.mp
      (ho [listingSeedBytes, producer.bytes, u64le amount, u64le price, [et]]
        c.programID)
    obtain ⟨⟨cp, cb⟩, hc⟩ := Option.isSome_iff_exists.mp
      (ho [consumerSeedBytes, buyer.bytes] c.programID)
    simp [Client.BuyTokens, Client.DeriveListingAccountPDA,
      Client.DeriveConsumerAccountPDA, hb, hp, hl, hc, builderOk]

/-- Witness for the C1 amended theorem: a zero grid id and a zero
authority id are rejected by InitializeGrid, while CancelListing and
BuyTokens build instructions for amount 0, price 0 and energy type 9. -/
theorem builders_validation_amended_witness :
    testClient.InitializeGrid constOracle ⟨zeroPk, pkOnes⟩ =
      .error "invalid grid public key" ∧
    testClient.InitializeGrid constOracle ⟨pkOnes, zeroPk⟩ =
      .error "invalid authority public key" ∧
    builderOk (testClient.CancelListing constOracle pkOnes 0 0 9) = true ∧
    builderOk (testClient.BuyTokens constOracle pkTwos pkOnes 0 0 9) = true := by
  have T := builders_validation_amended testClient constOracle
  refine ⟨T.1 ⟨zeroPk, pkOnes⟩ (by decide),
    T.2.1 ⟨pkOnes, zeroPk⟩ (by decide) (by decide),
    T.2.2.2.2.2.2.2.2.2.2.2.2.2.2.2.2.2.2.2.2.2.2.1 pkOnes 0 0 9 (by decide)
      (fun _ _ => rfl),
    T.2.2.2.2.2.2.2.2.2.2.2.2.2.2.2.2.2.2.2.2.2.2.2 pkTwos pkOnes 0 0 9
      (by decide) (by decide) (fun _ _ => rfl)⟩

/-- C10: every account fetcher strips the 8-byte record-type tag by the
unconditional slice data[8:]: if the transport returns an existing account
whose raw data is shorter than 8 bytes, the fetcher panics (modelled as
`none`) instead of returning a decode error; with data of at least 8 bytes
every fetcher returns a non-panicking result. -/
theorem fetchers_panic_on_short_data (c : Client) (o : DerivationOracle)
    (tS tL : PublicKey → TransportResult) (dS dL : List Nat)
    (g pr cons : PublicKey) (amount price et : Nat)
    (ho : ∀ seeds pid, (o.find seeds pid).isSome = true)
    (htS : ∀ pk, tS pk = TransportResult.found dS) (hdS : dS.length < 8)
    (htL : ∀ pk, tL pk = TransportResult.found dL) (hdL : 8 ≤ dL.length) :
    (c.GetGridAccount o tS g = none ∧
     c.GetProducerAccount o tS pr = none ∧
     c.GetConsumerAccount o tS cons = none ∧
     c.GetListingAccount o tS pr amount price et = none ∧
     c.GetMintRecord o tS pr amount et = none) ∧
    ((c.GetGridAccount o tL g).isSome = true ∧
     (c.GetProducerAccount o tL pr).isSome = true ∧
     (c.GetConsumerAccount o tL cons).isSome = true ∧
     (c.GetListingAccount o tL pr amount price et).isSome = true ∧
     (c.GetMintRecord o tL pr amount et).isSome = true) := by
  obtain ⟨⟨p1, b1⟩, h1⟩ := Option.isSome_iff_exists.mp
    (ho [gridSeedBytes, g.bytes] c.programID)
  obtain ⟨⟨p2, b2⟩, h2⟩ := Option.isSome_iff_exists.mp
    (ho [producerSeedBytes, pr.bytes] c.programID)
  obtain ⟨⟨p3, b3⟩, h3⟩ := Option.isSome_iff_exists.mp
    (ho [consumerSeedBytes, cons.bytes] c.programID)
  obtain ⟨⟨p4, b4⟩, h4⟩ := Option.isSome_iff_exists.mp
    (ho [listingSeedBytes, pr.bytes, u64le amount, u64le price, [et]] c.programID)
  obtain ⟨⟨p5, b5⟩, h5⟩ := Option.isSome_iff_exists.mp
    (ho [mintSeedBytes, pr.bytes, u64le amount, [et]] c.programID)
  have hnS : ¬ 8 ≤ dS.length := by omega
  constructor
  · refine ⟨?_, ?_, ?_, ?_, ?_⟩
    · simp [Client.GetGridAccount, Client.DeriveGridAccountPDA, h1, htS,
        goSliceFrom8, hnS]
    · simp [Client.GetProducerAccount, Client.DeriveProducerAccountPDA, h2, htS,
        goSliceFrom8, hnS]
    · simp [Client.GetConsumerAccount, Client.DeriveConsumerAccountPDA, h3, htS,
        goSliceFrom8, hnS]
    · simp [Client.GetListingAccount, Client.DeriveListingAccountPDA, h4, htS,
        goSliceFrom8, hnS]
    · simp [Client.GetMintRecord, Client.DeriveMintRecordPDA, h5, htS,
        goSliceFrom8, hnS]
  · refine ⟨?_, ?_, ?_, ?_, ?_⟩
    · simp only [Client.GetGridAccount, Client.DeriveGridAccountPDA, h1, htL,
        goSliceFrom8, if_pos hdL]
      cases deserializeGridAccount (dL.drop 8) <;> simp
    · simp only [Client.GetProducerAccount, Client.DeriveProducerAccountPDA, h2, htL,
        goSliceFrom8, if_pos hdL]
      cases deserializeProducerAccount (dL.drop 8) <;> simp
    · simp only [Client.GetConsumerAccount, Client.DeriveConsumerAccountPDA, h3, htL,
        goSliceFrom8, if_pos hdL]
      cases deserializeConsumerAccount (dL.drop 8) <;> simp
    · simp only [Client.GetListingAccount, Client.DeriveListingAccountPDA, h4, htL,
        goSliceFrom8, if_pos hdL]
      cases deserializeListingAccount (dL.drop 8) <;> simp
    · simp only [Client.GetMintRecord, Client.DeriveMintRecordPDA, h5, htL,
        goSliceFrom8, if_pos hdL]
      cases deserializeMintRecord (dL.drop 8) <;> simp

/-- Witness for C10: a 1-byte account payload makes all five fetchers
panic; a 96-byte payload makes all five return without panicking. -/
theorem fetchers_panic_on_short_data_witness :
    (testClient.GetGridAccount constOracle (fun _ => TransportResult.found [0])
        pkOnes = none ∧
     testClient.GetProducerAccount constOracle (fun _ => TransportResult.found [0])
        pkOnes = none ∧
     testClient.GetConsumerAccount constOracle (fun _ => TransportResult.found [0])
        pkOnes = none ∧
     testClient.GetListingAccount constOracle (fun _ => TransportResult.found [0])
        pkOnes 500 1000000 EnergyTypeWind = none ∧
     testClient.GetMintRecord constOracle (fun _ => TransportResult.found [0])
        pkOnes 500 EnergyTypeWind = none) ∧
    ((testClient.GetGridAccount constOracle
        (fun _ => TransportResult.found (List.replicate 96 0)) pkOnes).isSome = true ∧
     (testClient.GetProducerAccount constOracle
        (fun _ => TransportResult.found (List.replicate 96 0)) pkOnes).isSome = true ∧
     (testClient.GetConsumerAccount constOracle
        (fun _ => TransportResult.found (List.replicate 96 0)) pkOnes).isSome = true ∧
     (testClient.GetListingAccount constOracle
        (fun _ => TransportResult.found (List.replicate 96 0)) pkOnes 500 1000000
        EnergyTypeWind).isSome = true ∧
     (testClient.GetMintRecord constOracle
        (fun _ => TransportResult.found (List.replicate 96 0)) pkOnes 500
        EnergyTypeWind).isSome = true) :=
  fetchers_panic_on_short_data testClient constOracle
    (fun _ => TransportResult.found [0])
    (fun _ => TransportResult.found (List.replicate 96 0)) [0] (List.replicate 96 0)
    pkOnes pkOnes pkOnes 500 1000000 EnergyTypeWind
    (fun _ _ => rfl) (fun _ => rfl) (by decide) (fun _ => rfl) (by decide)
